import Mathlib

/-!
Verification development for the Backend-SPA task/auth REST backend.

The definitions below are a shallow embedding of the request-validation,
authentication, query-filtering, statistics and rate-limiting pipeline of
the repository:

* `src/validators/taskValidator.ts` (`createTaskSchema`, `updateTaskSchema`,
  `validateCreateTask`, `validateUpdateTask`, `validateTaskQueryFilters`),
* `src/validators/userValidator.ts` (`createUserSchema`, `loginUserSchema`,
  `validateCreateUser`, `validateLoginUser`),
* `src/middleware/auth.ts` (`authenticateToken`, `userRateLimit`),
* `src/controllers/authController.ts` (`generateToken`, `registerUser`,
  `loginUser`),
* `src/controllers/taskController.ts` (`getAllTasks` filter construction,
  `getTaskStats`).

The Joi validation collaborator is modelled faithfully for the rule sets the
schemas use: per-key checks run in schema-key order, each producing the
configured message; `abortEarly` (Joi's default is `true`; the body
validators pass `abortEarly: false`) keeps only the first error;
`stripUnknown: true` silently removes keys outside the schema.
-/

/-- JavaScript's `String.prototype.trim`: whitespace removed from both
ends (computed on the character list). -/
def jsTrim (s : String) : String :=
  ⟨(((s.data.dropWhile Char.isWhitespace).reverse.dropWhile Char.isWhitespace).reverse)⟩

/-- JavaScript's `String.prototype.toLowerCase` restricted to the ASCII
letters the comparisons below need. -/
def asciiLower (s : String) : String :=
  ⟨s.data.map Char.toLower⟩

/-- JavaScript's `String.prototype.startsWith`. -/
def strStartsWith (s p : String) : Bool :=
  p.data.isPrefixOf s.data

/-- JavaScript's `String.prototype.substring(n)` (drop the first `n`
characters). -/
def strDrop (s : String) (n : Nat) : String :=
  ⟨s.data.drop n⟩

/-- One `{field, message}` entry of a validation error `details` array. -/
structure FieldError where
  field : String
  message : String
deriving Repr, DecidableEq

/-- A raw JSON-ish value arriving in a request body.  `vdate` stands for any
value the Joi `date().iso()` rule accepts (a `Date` or an ISO-parseable
string), carrying its timestamp; `vstr` used in a date position therefore
stands for a string that is not ISO-parseable. -/
inductive RawVal where
  | vstr (s : String)
  | vbool (b : Bool)
  | vnum (n : Int)
  | vdate (d : Int)
  | vnull
deriving Repr, DecidableEq

/-- Body of a task create/update request: the five keys of
`createTaskSchema`/`updateTaskSchema`, each possibly absent.  Keys outside
the schema are removed by `stripUnknown: true` and are not part of the
sanitized value, so they are not modelled in the body record. -/
structure TaskBody where
  title : Option RawVal
  description : Option RawVal
  completed : Option RawVal
  priority : Option RawVal
  dueDate : Option RawVal
deriving Repr, DecidableEq

/-- Body of a register request (`createUserSchema` keys). -/
structure UserBody where
  username : Option RawVal
  email : Option RawVal
  password : Option RawVal
deriving Repr, DecidableEq

/-- Body of a login request (`loginUserSchema` keys). -/
structure LoginBody where
  username : Option RawVal
  password : Option RawVal
deriving Repr, DecidableEq

/-- Error messages produced by the `title` key of `createTaskSchema`:
`Joi.string().trim().min(1).max(100).required()` with the custom messages of
`src/validators/taskValidator.ts`. -/
def titleCreateMsgs : Option RawVal → List String
  | none => ["El título es obligatorio"]
  | some (.vstr s) =>
      let t := jsTrim s
      if t = "" then ["El título no puede estar vacío"]
      else if t.length > 100 then ["El título no puede exceder 100 caracteres"]
      else []
  | some _ => ["\"title\" must be a string"]

/-- Error messages produced by the `title` key of `updateTaskSchema`: same
rules as creation but the key is optional. -/
def titleUpdateMsgs : Option RawVal → List String
  | none => []
  | some (.vstr s) =>
      let t := jsTrim s
      if t = "" then ["El título no puede estar vacío"]
      else if t.length > 100 then ["El título no puede exceder 100 caracteres"]
      else []
  | some _ => ["\"title\" must be a string"]

/-- Error messages of the `description` key:
`Joi.string().trim().max(500).allow('')` (create additionally defaults to
`''`; the error behaviour is identical for create and update). -/
def descriptionMsgs : Option RawVal → List String
  | none => []
  | some (.vstr s) =>
      if (jsTrim s).length > 500 then ["La descripción no puede exceder 500 caracteres"]
      else []
  | some _ => ["\"description\" must be a string"]

/-- Error messages of the `completed` key: `Joi.boolean()` with the custom
`boolean.base` message; Joi coerces the strings "true"/"false". -/
def completedMsgs : Option RawVal → List String
  | none => []
  | some (.vbool _) => []
  | some (.vstr s) =>
      if asciiLower s = "true" ∨ asciiLower s = "false" then []
      else ["El campo completed debe ser verdadero o falso"]
  | some _ => ["El campo completed debe ser verdadero o falso"]

/-- Error messages of the `priority` key:
`Joi.string().valid('baja', 'media', 'alta')` with the custom `any.only`
message (the template string evaluates to the literal below); with
`valid(...)` present, any value outside the allowed set — of any type —
produces the `any.only` error. -/
def priorityMsgs : Option RawVal → List String
  | none => []
  | some (.vstr s) =>
      if s = "baja" ∨ s = "media" ∨ s = "alta" then []
      else ["La prioridad debe ser: baja, media, alta"]
  | some _ => ["La prioridad debe ser: baja, media, alta"]

/-- Error messages of the `dueDate` key: `Joi.date().iso().allow(null)`.
Numbers are converted as timestamps; a non-ISO string produces the
`date.format` message; a boolean produces the `date.base` message. -/
def dueDateMsgs : Option RawVal → List String
  | none => []
  | some .vnull => []
  | some (.vdate _) => []
  | some (.vnum _) => []
  | some (.vstr _) => ["La fecha debe estar en formato ISO válido (YYYY-MM-DDTHH:mm:ss.sssZ)"]
  | some (.vbool _) => ["La fecha de vencimiento debe ser una fecha válida"]

/-- Error messages of the `username` key of `createUserSchema`:
`Joi.string().trim().min(3).max(30).pattern(/^[a-zA-Z0-9_]+$/).required()`.
With `abortEarly: false` Joi reports every failing rule of the key. -/
def usernameMsgs : Option RawVal → List String
  | none => ["El nombre de usuario es obligatorio"]
  | some (.vstr s) =>
      let t := jsTrim s
      if t = "" then ["El nombre de usuario es obligatorio"]
      else
        (if t.length < 3 then ["El nombre de usuario debe tener al menos 3 caracteres"] else []) ++
        (if t.length > 30 then ["El nombre de usuario no puede exceder 30 caracteres"] else []) ++
        (if t.data.all (fun c => c.isAlphanum || c = '_') then []
         else ["El nombre de usuario solo puede contener letras, números y guiones bajos"])
  | some _ => ["\"username\" must be a string"]

/-- Joi's email-syntax check, modelled as: exactly one `@`, a non-empty
local part, and a domain of at least two non-empty dot-separated labels. -/
def emailSyntaxOk (s : String) : Bool :=
  match s.data.splitOn '@' with
  | [loc, domain] =>
      loc ≠ [] && (domain.splitOn '.').length ≥ 2 &&
        (domain.splitOn '.').all (fun p => p ≠ [])
  | _ => false

/-- Error messages of the `email` key of `createUserSchema`:
`Joi.string().trim().lowercase().email().required()` (the value is trimmed
and lowercased before the email check). -/
def emailMsgs : Option RawVal → List String
  | none => ["El email es obligatorio"]
  | some (.vstr s) =>
      let t := asciiLower (jsTrim s)
      if t = "" then ["El email es obligatorio"]
      else if emailSyntaxOk t then []
      else ["El formato del email no es válido"]
  | some _ => ["\"email\" must be a string"]

/-- Error messages of the `password` key of `createUserSchema`:
`Joi.string().min(6).max(128).required()` (no trimming). -/
def passwordMsgs : Option RawVal → List String
  | none => ["La contraseña es obligatoria"]
  | some (.vstr s) =>
      if s = "" then ["La contraseña es obligatoria"]
      else
        (if s.length < 6 then ["La contraseña debe tener al menos 6 caracteres"] else []) ++
        (if s.length > 128 then ["La contraseña no puede exceder 128 caracteres"] else [])
  | some _ => ["\"password\" must be a string"]

/-- Error messages of the `username` key of `loginUserSchema`:
`Joi.string().trim().required()`. -/
def loginUsernameMsgs : Option RawVal → List String
  | none => ["El nombre de usuario o email es obligatorio"]
  | some (.vstr s) =>
      if jsTrim s = "" then ["El nombre de usuario o email es obligatorio"] else []
  | some _ => ["\"username\" must be a string"]

/-- Error messages of the `password` key of `loginUserSchema`:
`Joi.string().required()`. -/
def loginPasswordMsgs : Option RawVal → List String
  | none => ["La contraseña es obligatoria"]
  | some (.vstr s) => if s = "" then ["La contraseña es obligatoria"] else []
  | some _ => ["\"password\" must be a string"]

/-- Turn the messages of one schema key into `{field, message}` entries;
Joi's `detail.path.join('.')` is the key name for these flat schemas. -/
def fieldErrsOf (name : String) (msgs : List String) : List FieldError :=
  msgs.map (fun m => ⟨name, m⟩)

/-- Joi's `abortEarly` handling: with `abortEarly: true` (the Joi default)
only the first error is reported, with `abortEarly: false` all are. -/
def joiApplyAbort (abortEarly : Bool) (errs : List FieldError) : List FieldError :=
  if abortEarly then errs.take 1 else errs

/-- Uniform error envelope (`IApiErrorResponse` of `src/types/index.ts`). -/
structure IApiErrorResponse where
  error : String
  message : String
  details : Option (List FieldError)
deriving Repr, DecidableEq

/-- The `details` array `validateCreateTask` reports:
`createTaskSchema.validate(body, { abortEarly: false, stripUnknown: true })`,
keys checked in schema order. -/
def validateCreateTaskDetails (b : TaskBody) : List FieldError :=
  joiApplyAbort false
    (fieldErrsOf "title" (titleCreateMsgs b.title) ++
     fieldErrsOf "description" (descriptionMsgs b.description) ++
     fieldErrsOf "completed" (completedMsgs b.completed) ++
     fieldErrsOf "priority" (priorityMsgs b.priority) ++
     fieldErrsOf "dueDate" (dueDateMsgs b.dueDate))

/-- Middleware `validateCreateTask`: `some resp` is the 400 rejection,
`none` means the request is passed on to the handler (`next()`). -/
def validateCreateTask (b : TaskBody) : Option IApiErrorResponse :=
  let details := validateCreateTaskDetails b
  if details = [] then none
  else some ⟨"Datos de entrada inválidos",
             "La información proporcionada para crear la tarea no es válida",
             some details⟩

/-- The `updateTaskSchema` object-level `.min(1)` rule: if none of the five
recognized keys is present the single `object.min` error is produced; its
`path` is empty, so the `field` of the entry is the empty string. -/
def updateMinErrs (b : TaskBody) : List FieldError :=
  if b.title.isNone && b.description.isNone && b.completed.isNone &&
     b.priority.isNone && b.dueDate.isNone
  then [⟨"", "Debe proporcionar al menos un campo para actualizar"⟩]
  else []

/-- The `details` array `validateUpdateTask` reports
(`abortEarly: false, stripUnknown: true`). -/
def validateUpdateTaskDetails (b : TaskBody) : List FieldError :=
  joiApplyAbort false
    (fieldErrsOf "title" (titleUpdateMsgs b.title) ++
     fieldErrsOf "description" (descriptionMsgs b.description) ++
     fieldErrsOf "completed" (completedMsgs b.completed) ++
     fieldErrsOf "priority" (priorityMsgs b.priority) ++
     fieldErrsOf "dueDate" (dueDateMsgs b.dueDate) ++
     updateMinErrs b)

/-- Middleware `validateUpdateTask`. -/
def validateUpdateTask (b : TaskBody) : Option IApiErrorResponse :=
  let details := validateUpdateTaskDetails b
  if details = [] then none
  else some ⟨"Datos de entrada inválidos",
             "La información proporcionada para actualizar la tarea no es válida",
             some details⟩

/-- The `details` array `validateCreateUser` reports
(`abortEarly: false, stripUnknown: true`). -/
def validateCreateUserDetails (u : UserBody) : List FieldError :=
  joiApplyAbort false
    (fieldErrsOf "username" (usernameMsgs u.username) ++
     fieldErrsOf "email" (emailMsgs u.email) ++
     fieldErrsOf "password" (passwordMsgs u.password))

/-- Middleware `validateCreateUser`. -/
def validateCreateUser (u : UserBody) : Option IApiErrorResponse :=
  let details := validateCreateUserDetails u
  if details = [] then none
  else some ⟨"Datos de registro inválidos",
             "La información proporcionada para el registro no es válida",
             some details⟩

/-- The `details` array `validateLoginUser` reports
(`abortEarly: false, stripUnknown: true`). -/
def validateLoginUserDetails (l : LoginBody) : List FieldError :=
  joiApplyAbort false
    (fieldErrsOf "username" (loginUsernameMsgs l.username) ++
     fieldErrsOf "password" (loginPasswordMsgs l.password))

/-- Middleware `validateLoginUser`. -/
def validateLoginUser (l : LoginBody) : Option IApiErrorResponse :=
  let details := validateLoginUserDetails l
  if details = [] then none
  else some ⟨"Datos de login inválidos",
             "Las credenciales proporcionadas no son válidas",
             some details⟩

/-- A raw task-list query string: the four recognized keys (values arrive
as strings) plus the names of any unrecognized keys. -/
structure RawQuery where
  completed : Option String
  priority : Option String
  sortBy : Option String
  order : Option String
  unknown : List String
deriving Repr, DecidableEq

/-- Error messages of the `completed` query key (`Joi.boolean()` with the
custom message; Joi coerces the strings "true"/"false"). -/
def completedQueryMsgs : Option String → List String
  | none => []
  | some s =>
      if asciiLower s = "true" ∨ asciiLower s = "false" then []
      else ["El parámetro completed debe ser true o false"]

/-- Error messages of the `priority` query key. -/
def priorityQueryMsgs : Option String → List String
  | none => []
  | some s =>
      if s = "baja" ∨ s = "media" ∨ s = "alta" then []
      else ["La prioridad debe ser: baja, media, alta"]

/-- Error messages of the `sortBy` query key
(`valid('title', 'completed', 'priority', 'dueDate', 'createdAt', 'updatedAt')`,
default `'createdAt'`). -/
def sortByQueryMsgs : Option String → List String
  | none => []
  | some s =>
      if s = "title" ∨ s = "completed" ∨ s = "priority" ∨ s = "dueDate" ∨
         s = "createdAt" ∨ s = "updatedAt" then []
      else ["El campo sortBy debe ser: title, completed, priority, dueDate, createdAt, o updatedAt"]

/-- Error messages of the `order` query key (`valid('asc', 'desc')`,
default `'desc'`). -/
def orderQueryMsgs : Option String → List String
  | none => []
  | some s =>
      if s = "asc" ∨ s = "desc" then []
      else ["El orden debe ser: asc o desc"]

/-- The `details` array `validateTaskQueryFilters` reports.  The source
calls `querySchema.validate(req.query, { stripUnknown: true })`: unknown
keys are stripped without error, and — `abortEarly` not being overridden —
Joi's default `abortEarly: true` keeps only the first error. -/
def validateTaskQueryFiltersDetails (q : RawQuery) : List FieldError :=
  joiApplyAbort true
    (fieldErrsOf "completed" (completedQueryMsgs q.completed) ++
     fieldErrsOf "priority" (priorityQueryMsgs q.priority) ++
     fieldErrsOf "sortBy" (sortByQueryMsgs q.sortBy) ++
     fieldErrsOf "order" (orderQueryMsgs q.order))

/-- Middleware `validateTaskQueryFilters`: `some resp` is the 400
rejection, `none` means `req.query = value; next()`. -/
def validateTaskQueryFilters (q : RawQuery) : Option IApiErrorResponse :=
  let details := validateTaskQueryFiltersDetails q
  if details = [] then none
  else some ⟨"Parámetros de consulta inválidos",
             "Los filtros proporcionados no son válidos",
             some details⟩

/-- The sanitized query value Joi assigns back to `req.query`: coerced
`completed`, defaults for `sortBy`/`order`, unknown keys stripped. -/
structure CleanQuery where
  completed : Option Bool
  priority : Option String
  sortBy : String
  order : String
deriving Repr, DecidableEq

/-- The sanitized value of a query that passed validation. -/
def sanitizeTaskQuery (q : RawQuery) : CleanQuery :=
  { completed := q.completed.map (fun s => asciiLower s = "true")
    priority := q.priority
    sortBy := q.sortBy.getD "createdAt"
    order := q.order.getD "desc" }

/-- The Mongo filter document `getAllTasks` builds. -/
structure TaskFilters where
  completed : Option Bool
  priority : Option String
deriving Repr, DecidableEq

/-- The Mongo sort document `getAllTasks` builds. -/
structure SortSpec where
  field : String
  direction : Int
deriving Repr, DecidableEq

/-- Filter/sort construction of `getAllTasks`
(`src/controllers/taskController.ts`): `completed` contributes only when
present, `priority` only when truthy (a non-empty string), sort direction
is `1` for `'asc'` and `-1` otherwise. -/
def buildTaskQuery (q : CleanQuery) : TaskFilters × SortSpec :=
  ( { completed := q.completed
      priority := match q.priority with
                  | some p => if p = "" then none else some p
                  | none => none },
    { field := q.sortBy
      direction := if q.order = "asc" then 1 else -1 } )

/-- Claims carried by a verified token (`IJWTPayload` with the `iat`/`exp`
fields the jsonwebtoken library adds). -/
structure JWTClaims where
  userId : String
  username : String
  iat : Int
  exp : Int
deriving Repr, DecidableEq

/-- The classification of a failed token verification (spec §4.3
`TokenError`). -/
inductive TokenFailure where
  | Malformed
  | Expired
  | NotYetValid
  | SignatureInvalid
deriving Repr, DecidableEq

/-- The `error.name` the jsonwebtoken library reports for each failure
kind: expiry is a `TokenExpiredError`, a not-yet-valid token a
`NotBeforeError`, and both a malformed token and an invalid signature are
`JsonWebTokenError`s. -/
def jwtErrorName : TokenFailure → String
  | .Expired => "TokenExpiredError"
  | .NotYetValid => "NotBeforeError"
  | .Malformed => "JsonWebTokenError"
  | .SignatureInvalid => "JsonWebTokenError"

/-- Modelled from the spec: the signed token produced by the external
signing primitive (§4.3, §6(c)); the repository only wraps it in
`generateToken` and `jwt.verify`.  The signature is modelled by the secret
it was produced with: verification compares it with the verifier's secret. -/
structure SignedToken where
  claims : JWTClaims
  sig : String
deriving Repr, DecidableEq

/-- Modelled from the spec: `issue` side of the Token Service (§4.3) —
`jwt.sign(payload, secret, { expiresIn })` embeds `iat = now` and
`exp = now + duration`. -/
def jwtSign (userId username : String) (secret : String) (now duration : Int) : SignedToken :=
  ⟨⟨userId, username, now, now + duration⟩, secret⟩

/-- Modelled from the spec: `verify` side of the Token Service (§4.3) —
pure given the signing secret; a wrong signature fails with
`SignatureInvalid`, a token whose expiry instant has been reached fails
with `Expired`, otherwise the embedded claims are returned. -/
def jwtVerify (t : SignedToken) (secret : String) (now : Int) : Except TokenFailure JWTClaims :=
  if t.sig ≠ secret then .error .SignatureInvalid
  else if t.claims.exp ≤ now then .error .Expired
  else .ok t.claims

/-- `JWT_EXPIRES_IN` defaults to `'7d'` in `generateToken`; in seconds. -/
def jwtExpiresInSeconds : Int := 604800

/-- `generateToken` of `src/controllers/authController.ts`: signs
`{userId, username}` with the configured secret and expiry duration. -/
def generateToken (userId username secret : String) (now : Int) : SignedToken :=
  jwtSign userId username secret now jwtExpiresInSeconds

/-- Bearer-token extraction of the auth middleware:
`authHeader && authHeader.startsWith('Bearer ') ? authHeader.substring(7) : null`. -/
def extractBearer : Option String → Option String
  | none => none
  | some h => if strStartsWith h "Bearer " then some (strDrop h 7) else none

/-- Result of running the auth middleware on a request. -/
inductive AuthOutcome where
  | rejected (status : Nat) (resp : IApiErrorResponse)
  | authenticated (claims : JWTClaims)
deriving Repr, DecidableEq

/-- The user-facing message the mandatory auth middleware chooses from the
verification error's `name` (`authenticateToken`, `src/middleware/auth.ts`): the initial value
`'Token inválido'` is overwritten by the matching branch. -/
def authFailureMessage (errorName : String) : String :=
  if errorName = "TokenExpiredError" then
    "El token ha expirado. Por favor, inicia sesión nuevamente"
  else if errorName = "JsonWebTokenError" then "Token malformado o inválido"
  else if errorName = "NotBeforeError" then "Token no válido aún"
  else "Token inválido"

/-- The 401 response of the mandatory middleware when no bearer token is
present. -/
def tokenRequiredResponse : IApiErrorResponse :=
  ⟨"Token requerido",
   "Se requiere un token de acceso válido para acceder a este recurso", none⟩

/-- Mandatory auth middleware `authenticateToken`, parameterized by the
verification outcome of the token string (`jwt.verify` with the configured
secret). -/
def authenticateToken (header : Option String)
    (verify : String → Except TokenFailure JWTClaims) : AuthOutcome :=
  match extractBearer header with
  | none => .rejected 401 tokenRequiredResponse
  | some tok =>
      match verify tok with
      | .error e =>
          .rejected 401 ⟨"Autenticación fallida", authFailureMessage (jwtErrorName e), none⟩
      | .ok claims => .authenticated claims

/-- A stored user record (the `users` collection). -/
structure StoredUser where
  uid : String
  username : String
  email : String
  password : String
  createdAt : Int
deriving Repr, DecidableEq

/-- `User.isUsernameTaken`: some stored user already has the username. -/
def isUsernameTaken (users : List StoredUser) (username : String) : Bool :=
  users.any (fun u => u.username = username)

/-- `User.isEmailTaken`: some stored user already has the email. -/
def isEmailTaken (users : List StoredUser) (email : String) : Bool :=
  users.any (fun u => u.email = email)

/-- `User.findByIdentifier`: first user whose username or email equals the
identifier. -/
def findByIdentifier (users : List StoredUser) (ident : String) : Option StoredUser :=
  users.find? (fun u => u.username = ident || u.email = ident)

/-- Result of the `registerUser` controller: HTTP status, the token issued
(if any), and the user collection after the call. -/
structure RegisterResult where
  status : Nat
  resp : IApiErrorResponse
  token : Option SignedToken
  users : List StoredUser
deriving Repr, DecidableEq

/-- `registerUser` of `src/controllers/authController.ts`: checks username
then email conflicts (409 before any insert), otherwise saves the user
(password hashed by the model's pre-save hook) and issues a token.  The
success envelope is not an error response; for uniformity the `resp` field
carries the envelope's `message` in the success case. -/
def registerUser (users : List StoredUser) (username email password : String)
    (newId : String) (hash : String → String) (secret : String) (now : Int) :
    RegisterResult :=
  if isUsernameTaken users username then
    ⟨409, ⟨"Usuario ya existe", "El nombre de usuario ya está registrado", none⟩,
     none, users⟩
  else if isEmailTaken users email then
    ⟨409, ⟨"Email ya registrado", "El email ya está asociado a otra cuenta", none⟩,
     none, users⟩
  else
    let saved : StoredUser := ⟨newId, username, email, hash password, now⟩
    ⟨201, ⟨"", "Usuario registrado exitosamente", none⟩,
     some (generateToken saved.uid saved.username secret now),
     users ++ [saved]⟩

/-- Result of the `loginUser` controller. -/
inductive LoginResult where
  | failure (status : Nat) (resp : IApiErrorResponse)
  | success (user : StoredUser) (token : SignedToken)
deriving Repr, DecidableEq

/-- `loginUser` of `src/controllers/authController.ts`: looks the user up
by username-or-email, then verifies the password with the credential
manager (`comparePassword`, passed in as `verify`). -/
def loginUser (users : List StoredUser) (verify : String → String → Bool)
    (username password : String) (secret : String) (now : Int) : LoginResult :=
  match findByIdentifier users username with
  | none =>
      .failure 401 ⟨"Credenciales inválidas", "Usuario o contraseña incorrectos", none⟩
  | some u =>
      if verify password u.password then
        .success u (generateToken u.uid u.username secret now)
      else
        .failure 401 ⟨"Credenciales inválidas", "Usuario o contraseña incorrectos", none⟩

/-- Per-identity record of the rate limiter's `userRequests` map. -/
structure RateRecord where
  count : Nat
  resetTime : Int
deriving Repr, DecidableEq

/-- `maxRequestsPerMinute` of `userRateLimit`. -/
def maxRequestsPerMinute : Nat := 100

/-- `windowMs` of `userRateLimit` (60 * 1000). -/
def windowMs : Int := 60000

/-- Outcome of one pass through the rate-limiting middleware for an
authenticated request. -/
inductive RateOutcome where
  | allowed
  | rejected (status : Nat) (resp : IApiErrorResponse)
deriving Repr, DecidableEq

/-- The 429 response of `userRateLimit`. -/
def rateLimitResponse : IApiErrorResponse :=
  ⟨"Límite de tasa excedido", "Demasiadas peticiones. Intenta de nuevo en un minuto", none⟩

/-- One step of `userRateLimit` for a fixed authenticated identity: if the
identity has no record or `now > resetTime`, a fresh record
`{count: 1, resetTime: now + windowMs}` is installed and the request
passes (lazy reset); otherwise a request at or over the cap is rejected
with 429 leaving the record unchanged, and below the cap the counter is
incremented. -/
def userRateLimitStep (rec : Option RateRecord) (now : Int) : RateOutcome × RateRecord :=
  match rec with
  | none => (.allowed, ⟨1, now + windowMs⟩)
  | some r =>
      if now > r.resetTime then (.allowed, ⟨1, now + windowMs⟩)
      else if r.count ≥ maxRequestsPerMinute then (.rejected 429 rateLimitResponse, r)
      else (.allowed, ⟨r.count + 1, r.resetTime⟩)

/-- Outcomes of a sequence of requests from one identity, at the given
times, starting from the given map entry for that identity. -/
def userRateLimitRun (rec : Option RateRecord) : List Int → List RateOutcome
  | [] => []
  | t :: ts =>
      let (out, r) := userRateLimitStep rec t
      out :: userRateLimitRun (some r) ts

/-- Task priorities (`TaskPriority` of `src/types/index.ts`). -/
inductive TaskPriority where
  | baja
  | media
  | alta
deriving Repr, DecidableEq

/-- A task document as stored in the tasks collection. -/
structure TaskDoc where
  title : String
  description : String
  completed : Bool
  priority : TaskPriority
  dueDate : Option Int
  createdAt : Int
  updatedAt : Int
deriving Repr, DecidableEq

/-- The `$cond [test, 1, 0]` terms of the stats aggregation. -/
def condOne (b : Bool) : Nat := if b then 1 else 0

/-- The `$and [$ne dueDate null, $lt dueDate now, $eq completed false]`
test of the `overdueTasks` sum. -/
def overdueCond (t : TaskDoc) (now : Int) : Bool :=
  match t.dueDate with
  | some d => decide (d < now) && !t.completed
  | none => false

/-- Accumulator of the single `$group` pass of `getTaskStats`. -/
structure StatsAcc where
  totalTasks : Nat
  completedTasks : Nat
  pendingTasks : Nat
  highPriorityTasks : Nat
  overdueTasks : Nat
deriving Repr, DecidableEq

/-- One document's contribution to the `$group` accumulators. -/
def statsStep (now : Int) (acc : StatsAcc) (t : TaskDoc) : StatsAcc :=
  { totalTasks := acc.totalTasks + 1
    completedTasks := acc.completedTasks + condOne (t.completed = true)
    pendingTasks := acc.pendingTasks + condOne (t.completed = false)
    highPriorityTasks := acc.highPriorityTasks + condOne (t.priority = .alta)
    overdueTasks := acc.overdueTasks + condOne (overdueCond t now) }

/-- The `Task.aggregate` pipeline of `getTaskStats`: a single pass over the
collection; on an empty collection the pipeline returns no group and the
controller substitutes the all-zero object, which the fold's initial
accumulator models. -/
def aggregateStats (tasks : List TaskDoc) (now : Int) : StatsAcc :=
  tasks.foldl (statsStep now) ⟨0, 0, 0, 0, 0⟩

/-- The stats payload of `getTaskStats`, with `completionPercentage`. -/
structure TaskStats where
  totalTasks : Nat
  completedTasks : Nat
  pendingTasks : Nat
  highPriorityTasks : Nat
  overdueTasks : Nat
  completionPercentage : Int
deriving Repr, DecidableEq

/-- `getTaskStats` of `src/controllers/taskController.ts`:
`completionPercentage = totalTasks > 0 ?
Math.round((completedTasks / totalTasks) * 100) : 0`; `Math.round` is
`round` (half away from zero toward +∞) on the exact rational. -/
def getTaskStats (tasks : List TaskDoc) (now : Int) : TaskStats :=
  let s := aggregateStats tasks now
  ⟨s.totalTasks, s.completedTasks, s.pendingTasks, s.highPriorityTasks, s.overdueTasks,
   if s.totalTasks > 0 then
     round ((s.completedTasks : ℚ) / (s.totalTasks : ℚ) * 100)
   else 0⟩

/-- Result of an Express middleware chain segment: either a validator
halted the request with an error response, or the handler ran. -/
inductive PipelineResult (β : Type) where
  | halted (resp : IApiErrorResponse)
  | handled (b : β)
deriving Repr, DecidableEq

/-- A validator middleware followed by a handler, as wired in
`src/routes/taskRoutes.ts`: the handler runs only when the validator calls
`next()` (returns no error response). -/
def runValidated {α β : Type} (validate : α → Option IApiErrorResponse)
    (handler : α → β) (a : α) : PipelineResult β :=
  match validate a with
  | some resp => .halted resp
  | none => .handled (handler a)

theorem exists_mem_append_l {α : Type} {p : α → Prop} {l1 l2 : List α}
    (h : ∃ e ∈ l1, p e) : ∃ e ∈ l1 ++ l2, p e := by
  obtain ⟨e, he, hp⟩ := h
  exact ⟨e, List.mem_append_left _ he, hp⟩

theorem exists_mem_append_r {α : Type} {p : α → Prop} {l1 l2 : List α}
    (h : ∃ e ∈ l2, p e) : ∃ e ∈ l1 ++ l2, p e := by
  obtain ⟨e, he, hp⟩ := h
  exact ⟨e, List.mem_append_right _ he, hp⟩

theorem fieldErrsOf_exists (name : String) (msgs : List String) (h : msgs ≠ []) :
    ∃ e ∈ fieldErrsOf name msgs, e.field = name := by
  obtain ⟨m, hm⟩ := List.exists_mem_of_ne_nil msgs h
  exact ⟨⟨name, m⟩, List.mem_map_of_mem _ hm, rfl⟩

/-- Claim C1, counterexample: a query whose only content is the
unrecognized key `foo` is not rejected — `validateTaskQueryFilters`
passes it on (`stripUnknown: true` silently drops the key), so an
unrecognized query key does not produce a validation error. -/
theorem c1_unknown_key_not_rejected :
    validateTaskQueryFilters ⟨none, none, none, none, ["foo"]⟩ = none ∧
    sanitizeTaskQuery ⟨none, none, none, none, ["foo"]⟩ = ⟨none, none, "createdAt", "desc"⟩ := by
  constructor <;> rfl

/-- Claim C1 (amended): unrecognized query keys are silently dropped by
`validateTaskQueryFilters`, never rejected: the validation outcome, the
sanitized query, and the filter/sort specification the query builder
derives from it are all independent of the unrecognized keys. -/
theorem c1_unknown_keys_silently_dropped (q : RawQuery) :
    validateTaskQueryFilters q =
      validateTaskQueryFilters ⟨q.completed, q.priority, q.sortBy, q.order, []⟩ ∧
    sanitizeTaskQuery q = sanitizeTaskQuery ⟨q.completed, q.priority, q.sortBy, q.order, []⟩ ∧
    buildTaskQuery (sanitizeTaskQuery q) =
      buildTaskQuery (sanitizeTaskQuery ⟨q.completed, q.priority, q.sortBy, q.order, []⟩) := by
  cases q
  exact ⟨rfl, rfl, rfl⟩

/-- Claim C2, counterexample: a malformed token and a signature-invalid
token produce the identical rejection (both failure kinds reach the
middleware as a `JsonWebTokenError`), so their user-facing texts are not
distinct. -/
theorem c2_malformed_signature_same_response :
    authenticateToken (some "Bearer t") (fun _ => .error .Malformed) =
      authenticateToken (some "Bearer t") (fun _ => .error .SignatureInvalid) ∧
    authFailureMessage (jwtErrorName .Malformed) =
      authFailureMessage (jwtErrorName .SignatureInvalid) := by
  constructor <;> rfl

/-- Claim C2 (amended): every verification failure on a protected route is
rejected with the same status code 401 and the message mapped from the
error kind's name; the expired text is distinct from the malformed and
signature-invalid texts, but malformed and signature-invalid share one
text. -/
theorem c2_auth_failure_status_and_messages (h : Option String) (tok : String)
    (verify : String → Except TokenFailure JWTClaims) (e : TokenFailure)
    (hex : extractBearer h = some tok) (hv : verify tok = .error e) :
    authenticateToken h verify =
      .rejected 401 ⟨"Autenticación fallida", authFailureMessage (jwtErrorName e), none⟩ ∧
    authFailureMessage (jwtErrorName .Expired) ≠ authFailureMessage (jwtErrorName .Malformed) ∧
    authFailureMessage (jwtErrorName .Expired) ≠
      authFailureMessage (jwtErrorName .SignatureInvalid) ∧
    authFailureMessage (jwtErrorName .Malformed) =
      authFailureMessage (jwtErrorName .SignatureInvalid) := by
  refine ⟨?_, by decide, by decide, rfl⟩
  simp [authenticateToken, hex, hv]

/-- Witness for C2 at a concrete expired-token request. -/
theorem c2_witness :
    extractBearer (some "Bearer abc") = some "abc" ∧
    authenticateToken (some "Bearer abc")
        (fun _ => .error .Expired) =
      .rejected 401 ⟨"Autenticación fallida",
        "El token ha expirado. Por favor, inicia sesión nuevamente", none⟩ :=
  ⟨by decide,
   (c2_auth_failure_status_and_messages (some "Bearer abc") "abc"
      (fun _ => .error .Expired) .Expired (by decide) rfl).1⟩

/-- Claim C4: a token issued by `generateToken` and verified with the same
secret before its expiry yields exactly the embedded claims; verified
after the expiry instant it fails specifically with `Expired`. -/
theorem c4_token_roundtrip_and_expiry (uid un secret : String) (tIssue tVerify tLate : Int) :
    (tVerify < tIssue + jwtExpiresInSeconds →
      jwtVerify (generateToken uid un secret tIssue) secret tVerify =
        .ok ⟨uid, un, tIssue, tIssue + jwtExpiresInSeconds⟩) ∧
    (tIssue + jwtExpiresInSeconds < tLate →
      jwtVerify (generateToken uid un secret tIssue) secret tLate = .error .Expired) := by
  constructor
  · intro hvalid
    simp [jwtVerify, generateToken, jwtSign]
    omega
  · intro hlate
    simp [jwtVerify, generateToken, jwtSign]
    omega

/-- Witness for C4 at a concrete issuance. -/
theorem c4_witness :
    ((100 : Int) < 0 + jwtExpiresInSeconds ∧
      jwtVerify (generateToken "u1" "alice" "s3cret" 0) "s3cret" 100 =
        .ok ⟨"u1", "alice", 0, 0 + jwtExpiresInSeconds⟩) ∧
    ((0 : Int) + jwtExpiresInSeconds < 604801 ∧
      jwtVerify (generateToken "u1" "alice" "s3cret" 0) "s3cret" 604801 = .error .Expired) :=
  ⟨⟨by decide,
    (c4_token_roundtrip_and_expiry "u1" "alice" "s3cret" 0 100 604801).1 (by decide)⟩,
   ⟨by decide,
    (c4_token_roundtrip_and_expiry "u1" "alice" "s3cret" 0 100 604801).2 (by decide)⟩⟩

/-- Claim C7: the empty update body is halted by `validateUpdateTask` with
exactly the single `object.min` error, and the downstream handler (the
persistence call) never runs. -/
theorem c7_empty_update_rejected (β : Type) (handler : TaskBody → β) :
    runValidated validateUpdateTask handler ⟨none, none, none, none, none⟩ =
      .halted ⟨"Datos de entrada inválidos",
               "La información proporcionada para actualizar la tarea no es válida",
               some [⟨"", "Debe proporcionar al menos un campo para actualizar"⟩]⟩ := by
  rfl

/-- Claim C8: registering a username that is already taken returns 409
with the conflict response, leaves the user collection unchanged, and
issues no token. -/
theorem c8_register_conflict (users : List StoredUser)
    (username email password newId : String) (hash : String → String)
    (secret : String) (now : Int)
    (htaken : isUsernameTaken users username = true) :
    registerUser users username email password newId hash secret now =
      ⟨409, ⟨"Usuario ya existe", "El nombre de usuario ya está registrado", none⟩,
       none, users⟩ := by
  simp [registerUser, htaken]

/-- Witness for C8 at a concrete taken username. -/
theorem c8_witness :
    isUsernameTaken [⟨"1", "bob", "bob@mail.co", "h", 0⟩] "bob" = true ∧
    registerUser [⟨"1", "bob", "bob@mail.co", "h", 0⟩] "bob" "new@mail.co" "pw123456"
        "2" (fun p => p) "s" 5 =
      ⟨409, ⟨"Usuario ya existe", "El nombre de usuario ya está registrado", none⟩,
       none, [⟨"1", "bob", "bob@mail.co", "h", 0⟩]⟩ :=
  ⟨by decide,
   c8_register_conflict [⟨"1", "bob", "bob@mail.co", "h", 0⟩] "bob" "new@mail.co"
     "pw123456" "2" (fun p => p) "s" 5 (by decide)⟩

/-- Claim C9: a login whose identifier matches no user and a login whose
user exists but whose password fails verification produce the identical
response — status 401 and byte-identical error and message text. -/
theorem c9_login_failures_indistinguishable
    (users1 : List StoredUser) (verify1 : String → String → Bool)
    (un1 pw1 s1 : String) (n1 : Int)
    (users2 : List StoredUser) (verify2 : String → String → Bool)
    (un2 pw2 s2 : String) (n2 : Int) (u : StoredUser)
    (hnone : findByIdentifier users1 un1 = none)
    (hfound : findByIdentifier users2 un2 = some u)
    (hbad : verify2 pw2 u.password = false) :
    loginUser users1 verify1 un1 pw1 s1 n1 = loginUser users2 verify2 un2 pw2 s2 n2 ∧
    loginUser users1 verify1 un1 pw1 s1 n1 =
      .failure 401 ⟨"Credenciales inválidas", "Usuario o contraseña incorrectos", none⟩ := by
  refine ⟨?_, ?_⟩ <;> simp [loginUser, hnone, hfound, hbad]

/-- Witness for C9 at a concrete pair of failing logins. -/
theorem c9_witness :
    findByIdentifier [] "ghost" = none ∧
    findByIdentifier [⟨"1", "alice", "alice@mail.co", "hashed", 0⟩] "alice" =
      some ⟨"1", "alice", "alice@mail.co", "hashed", 0⟩ ∧
    loginUser [] (fun p h => p = h) "ghost" "x" "s" 0 =
      loginUser [⟨"1", "alice", "alice@mail.co", "hashed", 0⟩] (fun p h => p = h)
        "alice" "wrong" "s" 0 :=
  ⟨by decide, by decide,
   (c9_login_failures_indistinguishable [] (fun p h => p = h) "ghost" "x" "s" 0
      [⟨"1", "alice", "alice@mail.co", "hashed", 0⟩] (fun p h => p = h)
      "alice" "wrong" "s" 0 ⟨"1", "alice", "alice@mail.co", "hashed", 0⟩
      (by decide) (by decide) (by decide)).1⟩

/-- Claim C10: an Authorization header present but not starting with
"Bearer " is treated exactly like an absent header — rejected with the
`Token requerido` authentication-required response regardless of the
verifier, which is never consulted. -/
theorem c10_non_bearer_header (s : String)
    (verify : String → Except TokenFailure JWTClaims)
    (hnb : strStartsWith s "Bearer " = false) :
    authenticateToken (some s) verify = .rejected 401 tokenRequiredResponse ∧
    authenticateToken (some s) verify = authenticateToken none verify := by
  refine ⟨?_, ?_⟩ <;> simp [authenticateToken, extractBearer, hnb]

/-- Witness for C10 at a concrete non-Bearer header and an
always-accepting verifier. -/
theorem c10_witness :
    strStartsWith "Token abc" "Bearer " = false ∧
    authenticateToken (some "Token abc") (fun t => .ok ⟨t, t, 0, 1⟩) =
      .rejected 401 tokenRequiredResponse :=
  ⟨by decide,
   (c10_non_bearer_header "Token abc" (fun t => .ok ⟨t, t, 0, 1⟩) (by decide)).1⟩

/-- Claim C3, counterexample: a query violating both `completed` and
`priority` gets a single-entry error list — the query-filter validator
(validated without `abortEarly: false`) stops at the first violation
instead of collecting one entry per violated field. -/
theorem c3_query_filter_aborts_early :
    completedQueryMsgs (some "maybe") ≠ [] ∧
    priorityQueryMsgs (some "urgent") ≠ [] ∧
    validateTaskQueryFiltersDetails ⟨some "maybe", some "urgent", none, none, []⟩ =
      [⟨"completed", "El parámetro completed debe ser true o false"⟩] := by
  refine ⟨by decide, by decide, by decide⟩

/-- Claim C3 (amended): the task-create, task-update, user-register and
user-login validators (run with `abortEarly: false`) report one
`{field, message}` entry for every violated field, while the query-filter
validator reports at most the first violation. -/
theorem c3_collect_all (cb ub : TaskBody) (rb : UserBody) (lb : LoginBody) (q : RawQuery) :
    ((titleCreateMsgs cb.title ≠ [] →
        ∃ e ∈ validateCreateTaskDetails cb, e.field = "title") ∧
     (descriptionMsgs cb.description ≠ [] →
        ∃ e ∈ validateCreateTaskDetails cb, e.field = "description") ∧
     (completedMsgs cb.completed ≠ [] →
        ∃ e ∈ validateCreateTaskDetails cb, e.field = "completed") ∧
     (priorityMsgs cb.priority ≠ [] →
        ∃ e ∈ validateCreateTaskDetails cb, e.field = "priority") ∧
     (dueDateMsgs cb.dueDate ≠ [] →
        ∃ e ∈ validateCreateTaskDetails cb, e.field = "dueDate")) ∧
    ((titleUpdateMsgs ub.title ≠ [] →
        ∃ e ∈ validateUpdateTaskDetails ub, e.field = "title") ∧
     (descriptionMsgs ub.description ≠ [] →
        ∃ e ∈ validateUpdateTaskDetails ub, e.field = "description") ∧
     (completedMsgs ub.completed ≠ [] →
        ∃ e ∈ validateUpdateTaskDetails ub, e.field = "completed") ∧
     (priorityMsgs ub.priority ≠ [] →
        ∃ e ∈ validateUpdateTaskDetails ub, e.field = "priority") ∧
     (dueDateMsgs ub.dueDate ≠ [] →
        ∃ e ∈ validateUpdateTaskDetails ub, e.field = "dueDate")) ∧
    ((usernameMsgs rb.username ≠ [] →
        ∃ e ∈ validateCreateUserDetails rb, e.field = "username") ∧
     (emailMsgs rb.email ≠ [] →
        ∃ e ∈ validateCreateUserDetails rb, e.field = "email") ∧
     (passwordMsgs rb.password ≠ [] →
        ∃ e ∈ validateCreateUserDetails rb, e.field = "password")) ∧
    ((loginUsernameMsgs lb.username ≠ [] →
        ∃ e ∈ validateLoginUserDetails lb, e.field = "username") ∧
     (loginPasswordMsgs lb.password ≠ [] →
        ∃ e ∈ validateLoginUserDetails lb, e.field = "password")) ∧
    (validateTaskQueryFiltersDetails q).length ≤ 1 := by
  refine ⟨⟨?_, ?_, ?_, ?_, ?_⟩, ⟨?_, ?_, ?_, ?_, ?_⟩, ⟨?_, ?_, ?_⟩, ⟨?_, ?_⟩, ?_⟩
  all_goals simp only [validateCreateTaskDetails, validateUpdateTaskDetails,
    validateCreateUserDetails, validateLoginUserDetails,
    validateTaskQueryFiltersDetails, joiApplyAbort, if_neg, if_pos,
    Bool.false_eq_true, not_false_eq_true, if_false, if_true, ite_true, ite_false]
  case _ => exact fun h =>
    exists_mem_append_l (exists_mem_append_l (exists_mem_append_l
      (exists_mem_append_l (fieldErrsOf_exists _ _ h))))
  case _ => exact fun h =>
    exists_mem_append_l (exists_mem_append_l (exists_mem_append_l
      (exists_mem_append_r (fieldErrsOf_exists _ _ h))))
  case _ => exact fun h =>
    exists_mem_append_l (exists_mem_append_l (exists_mem_append_r (fieldErrsOf_exists _ _ h)))
  case _ => exact fun h =>
    exists_mem_append_l (exists_mem_append_r (fieldErrsOf_exists _ _ h))
  case _ => exact fun h => exists_mem_append_r (fieldErrsOf_exists _ _ h)
  case _ => exact fun h =>
    exists_mem_append_l (exists_mem_append_l (exists_mem_append_l (exists_mem_append_l
      (exists_mem_append_l (fieldErrsOf_exists _ _ h)))))
  case _ => exact fun h =>
    exists_mem_append_l (exists_mem_append_l (exists_mem_append_l (exists_mem_append_l
      (exists_mem_append_r (fieldErrsOf_exists _ _ h)))))
  case _ => exact fun h =>
    exists_mem_append_l (exists_mem_append_l (exists_mem_append_l
      (exists_mem_append_r (fieldErrsOf_exists _ _ h))))
  case _ => exact fun h =>
    exists_mem_append_l (exists_mem_append_l (exists_mem_append_r (fieldErrsOf_exists _ _ h)))
  case _ => exact fun h =>
    exists_mem_append_l (exists_mem_append_r (fieldErrsOf_exists _ _ h))
  case _ => exact fun h =>
    exists_mem_append_l (exists_mem_append_l (fieldErrsOf_exists _ _ h))
  case _ => exact fun h =>
    exists_mem_append_l (exists_mem_append_r (fieldErrsOf_exists _ _ h))
  case _ => exact fun h => exists_mem_append_r (fieldErrsOf_exists _ _ h)
  case _ => exact fun h => exists_mem_append_l (fieldErrsOf_exists _ _ h)
  case _ => exact fun h => exists_mem_append_r (fieldErrsOf_exists _ _ h)
  case _ =>
    calc (List.take 1 _).length ≤ 1 := by
          rw [List.length_take]
          exact min_le_left _ _

/-- Witness for C3 at a concrete create body violating `title` and
`priority` simultaneously, and a concrete two-violation query. -/
theorem c3_witness :
    titleCreateMsgs (none : Option RawVal) ≠ [] ∧
    priorityMsgs (some (.vstr "urgent")) ≠ [] ∧
    (∃ e ∈ validateCreateTaskDetails ⟨none, none, none, some (.vstr "urgent"), none⟩,
       e.field = "title") ∧
    (∃ e ∈ validateCreateTaskDetails ⟨none, none, none, some (.vstr "urgent"), none⟩,
       e.field = "priority") ∧
    (validateTaskQueryFiltersDetails ⟨some "maybe", some "urgent", none, none, []⟩).length ≤ 1 :=
  ⟨by decide, by decide,
   (c3_collect_all ⟨none, none, none, some (.vstr "urgent"), none⟩
      ⟨none, none, none, none, none⟩ ⟨none, none, none⟩ ⟨none, none⟩
      ⟨some "maybe", some "urgent", none, none, []⟩).1.1 (by decide),
   (c3_collect_all ⟨none, none, none, some (.vstr "urgent"), none⟩
      ⟨none, none, none, none, none⟩ ⟨none, none, none⟩ ⟨none, none⟩
      ⟨some "maybe", some "urgent", none, none, []⟩).1.2.2.2.1 (by decide),
   (c3_collect_all ⟨none, none, none, some (.vstr "urgent"), none⟩
      ⟨none, none, none, none, none⟩ ⟨none, none, none⟩ ⟨none, none⟩
      ⟨some "maybe", some "urgent", none, none, []⟩).2.2.2.2⟩

theorem foldl_statsStep (now : Int) (ts : List TaskDoc) (acc : StatsAcc) :
    ts.foldl (statsStep now) acc =
      ⟨acc.totalTasks + ts.length,
       acc.completedTasks + ts.countP (fun t => t.completed),
       acc.pendingTasks + ts.countP (fun t => t.completed = false),
       acc.highPriorityTasks + ts.countP (fun t => t.priority = TaskPriority.alta),
       acc.overdueTasks + ts.countP (fun t => overdueCond t now)⟩ := by
  induction ts generalizing acc with
  | nil => simp
  | cons t ts ih =>
      rw [List.foldl_cons, ih]
      simp only [statsStep, condOne, List.length_cons, List.countP_cons, StatsAcc.mk.injEq,
        decide_eq_true_eq, Bool.not_eq_true]
      refine ⟨by omega, ?_, ?_, ?_, ?_⟩ <;> (split <;> omega)

/-- Claim C5: `getTaskStats` returns `overdueTasks` equal to the count of
tasks with a non-null `dueDate` earlier than the current time and
`completed = false`; `completionPercentage` is the rounding of
`completed / total * 100` when the collection is non-empty and exactly `0`
on the empty collection. -/
theorem c5_stats_overdue_and_percentage (tasks : List TaskDoc) (now : Int) :
    (getTaskStats tasks now).overdueTasks =
      tasks.countP (fun t => overdueCond t now) ∧
    (tasks ≠ [] →
      (getTaskStats tasks now).completionPercentage =
        round ((tasks.countP (fun t => t.completed) : ℚ) / (tasks.length : ℚ) * 100)) ∧
    (tasks = [] → (getTaskStats tasks now).completionPercentage = 0) := by
  have hagg := foldl_statsStep now tasks ⟨0, 0, 0, 0, 0⟩
  refine ⟨?_, ?_, ?_⟩
  · simp [getTaskStats, aggregateStats, hagg]
  · intro hne
    have hlen : 0 < tasks.length := List.length_pos.mpr hne
    simp only [getTaskStats, aggregateStats, hagg]
    simp [hlen]
  · intro he
    subst he
    rfl

/-- Witness for C5: three tasks of which exactly one is completed and one
is overdue — `completionPercentage` is `round(1/3 * 100) = 33` and
`overdueTasks` is `1`. -/
theorem c5_witness :
    ([⟨"a", "", true, .media, none, 0, 0⟩,
      ⟨"b", "", false, .alta, some 5, 0, 0⟩,
      ⟨"c", "", false, .baja, some 20, 0, 0⟩] : List TaskDoc) ≠ [] ∧
    (getTaskStats [⟨"a", "", true, .media, none, 0, 0⟩,
      ⟨"b", "", false, .alta, some 5, 0, 0⟩,
      ⟨"c", "", false, .baja, some 20, 0, 0⟩] 10).overdueTasks = 1 ∧
    (getTaskStats [⟨"a", "", true, .media, none, 0, 0⟩,
      ⟨"b", "", false, .alta, some 5, 0, 0⟩,
      ⟨"c", "", false, .baja, some 20, 0, 0⟩] 10).completionPercentage = 33 := by
  refine ⟨by decide, ?_, ?_⟩
  · rw [(c5_stats_overdue_and_percentage [⟨"a", "", true, .media, none, 0, 0⟩,
      ⟨"b", "", false, .alta, some 5, 0, 0⟩,
      ⟨"c", "", false, .baja, some 20, 0, 0⟩] 10).1]
    decide
  · rw [(c5_stats_overdue_and_percentage [⟨"a", "", true, .media, none, 0, 0⟩,
      ⟨"b", "", false, .alta, some 5, 0, 0⟩,
      ⟨"c", "", false, .baja, some 20, 0, 0⟩] 10).2.1 (by decide)]
    norm_num [round_eq]

theorem userRateLimitRun_fills (ts : List Int) (tLast : Int) (c : Nat) (reset : Int)
    (hts : ∀ t ∈ ts, t ≤ reset) (hcap : c + ts.length = maxRequestsPerMinute)
    (hlast : tLast ≤ reset) :
    userRateLimitRun (some ⟨c, reset⟩) (ts ++ [tLast]) =
      List.replicate ts.length .allowed ++ [.rejected 429 rateLimitResponse] := by
  induction ts generalizing c with
  | nil =>
      have hc : c = maxRequestsPerMinute := by simpa using hcap
      subst hc
      simp [userRateLimitRun, userRateLimitStep, not_lt.mpr hlast]
  | cons t ts ih =>
      have ht : t ≤ reset := hts t (List.mem_cons_self t ts)
      have hstep : userRateLimitStep (some ⟨c, reset⟩) t = (.allowed, ⟨c + 1, reset⟩) := by
        have hunder : ¬ c ≥ maxRequestsPerMinute := by
          simp only [List.length_cons] at hcap
          omega
        simp [userRateLimitStep, not_lt.mpr ht, hunder]
      have hhead : userRateLimitRun (some ⟨c, reset⟩) ((t :: ts) ++ [tLast]) =
          (userRateLimitStep (some ⟨c, reset⟩) t).1 ::
            userRateLimitRun (some (userRateLimitStep (some ⟨c, reset⟩) t).2)
              (ts ++ [tLast]) := rfl
      rw [hhead, hstep]
      show RateOutcome.allowed ::
        userRateLimitRun (some ⟨c + 1, reset⟩) (ts ++ [tLast]) = _
      have hcap2 : c + 1 + ts.length = maxRequestsPerMinute := by
        simp only [List.length_cons] at hcap
        omega
      rw [ih (c + 1) (fun x hx => hts x (List.mem_cons_of_mem t hx)) hcap2]
      simp [List.replicate_succ]

/-- Claim C6: for any identity with no record yet, a sequence of 101
requests all inside the 60-second window opened by the first request has
its first 100 requests allowed and its 101st rejected with the 429
throttling response; and for any existing record, the first request after
the window's reset instant is allowed because the counter is lazily reset
to a fresh window on that access. -/
theorem c6_rate_limit_window (t0 : Int) (ts : List Int) (tLast : Int)
    (hts : ∀ t ∈ ts, t0 ≤ t ∧ t ≤ t0 + windowMs)
    (hlen : ts.length = 99)
    (_hlast0 : t0 ≤ tLast) (hlast : tLast ≤ t0 + windowMs) :
    userRateLimitRun none (t0 :: (ts ++ [tLast])) =
      List.replicate 100 .allowed ++ [.rejected 429 rateLimitResponse] ∧
    (∀ (r : RateRecord) (tNew : Int), r.resetTime < tNew →
      userRateLimitStep (some r) tNew = (.allowed, ⟨1, tNew + windowMs⟩)) := by
  constructor
  · have hrun : userRateLimitRun none (t0 :: (ts ++ [tLast])) =
        .allowed :: userRateLimitRun (some ⟨1, t0 + windowMs⟩) (ts ++ [tLast]) := rfl
    rw [hrun, userRateLimitRun_fills ts tLast 1 (t0 + windowMs)
          (fun t htm => (hts t htm).2) (by rw [hlen]; decide) hlast, hlen]
    rfl
  · intro r tNew hreset
    simp [userRateLimitStep, hreset]

/-- Witness for C6: 101 requests at the window-opening instant, then a
fresh allowance after a record's window has expired. -/
theorem c6_witness :
    (∀ t ∈ List.replicate 99 (0 : Int), (0 : Int) ≤ t ∧ t ≤ 0 + windowMs) ∧
    userRateLimitRun none ((0 : Int) :: (List.replicate 99 (0 : Int) ++ [0])) =
      List.replicate 100 .allowed ++ [.rejected 429 rateLimitResponse] ∧
    userRateLimitStep (some ⟨42, 60000⟩) 60001 = (.allowed, ⟨1, 60001 + windowMs⟩) := by
  have h := c6_rate_limit_window 0 (List.replicate 99 0) 0
    (by intro t ht; simp at ht; simp [ht, windowMs]) (by simp) le_rfl
    (by simp [windowMs])
  exact ⟨by intro t ht; simp at ht; simp [ht, windowMs], h.1, h.2 ⟨42, 60000⟩ 60001 (by decide)⟩
